import Mathlib

/-!
Verification development for the pi5-fan-controller repository.

The definitions below are a shallow embedding of `src/fan_controller.cpp`
(together with the `FanSpeed` enum from `include/fan_controller.hpp`).
Temperatures are modelled as rationals (the C++ code uses `double`, but every
comparison and the averaging are exact arithmetic on the values involved),
file contents are modelled by an explicit `FileState` environment, and the
side effects of logging are modelled as the list of messages actually
emitted to stdout/stderr.
-/

/-- The `FanSpeed` enum of `fan_controller.hpp`: OFF=0, LOW=1, MEDIUM=2,
HIGH=3, FULL=4, totally ordered by the underlying integer value. -/
inductive FanSpeed where
  | OFF
  | LOW
  | MEDIUM
  | HIGH
  | FULL
deriving DecidableEq

/-- The underlying integer of a `FanSpeed` value (`static_cast<int>`). -/
def FanSpeed.toInt : FanSpeed → Int
  | .OFF => 0
  | .LOW => 1
  | .MEDIUM => 2
  | .HIGH => 3
  | .FULL => 4

/-- Embedding of `static_cast<FanSpeed>(n)`; in the source this cast is only performed
after checking `0 <= n && n <= 4` (readFanSpeed). -/
def FanSpeed.ofInt (n : Int) : FanSpeed :=
  if n = 1 then .LOW
  else if n = 2 then .MEDIUM
  else if n = 3 then .HIGH
  else if n = 4 then .FULL
  else .OFF

/-- The `FanControllerConfig` settings structure consumed by the controller
(paths, the five Celsius thresholds, hysteresis margin, poll interval,
debug flag). -/
structure FanControllerConfig where
  fan_path : String
  temp_hwmon0_path : String
  temp_hwmon1_path : String
  off_threshold : ℚ
  low_threshold : ℚ
  medium_threshold : ℚ
  high_threshold : ℚ
  full_threshold : ℚ
  hysteresis : ℚ
  interval_seconds : Nat
  debug : Bool

/-- Embedding of `FanController::determineTargetSpeed`: descending chain of inclusive
comparisons against the full/high/medium/low thresholds. -/
def determineTargetSpeed (cfg : FanControllerConfig) (temperature : ℚ) : FanSpeed :=
  if temperature ≥ cfg.full_threshold then .FULL
  else if temperature ≥ cfg.high_threshold then .HIGH
  else if temperature ≥ cfg.medium_threshold then .MEDIUM
  else if temperature ≥ cfg.low_threshold then .LOW
  else .OFF

/-- Embedding of `FanController::getThresholdForSpeed`: maps a target speed to the
boundary used for the hysteresis check (OFF→low, LOW→medium, MEDIUM→high,
HIGH and FULL→full). -/
def getThresholdForSpeed (cfg : FanControllerConfig) (speed : FanSpeed) : ℚ :=
  match speed with
  | .OFF => cfg.low_threshold
  | .LOW => cfg.medium_threshold
  | .MEDIUM => cfg.high_threshold
  | .HIGH => cfg.full_threshold
  | .FULL => cfg.full_threshold

/-- Embedding of `FanController::checkHysteresis`: admit with disabled hysteresis, admit
any increase, gate a decrease on `temperature <= threshold - hysteresis`,
admit a no-op. `current` stands for the `current_fan_speed_` member. -/
def checkHysteresis (cfg : FanControllerConfig) (current : FanSpeed)
    (temperature : ℚ) (target : FanSpeed) : Bool :=
  if cfg.hysteresis ≤ 0 then true
  else if current.toInt < target.toInt then true
  else if target.toInt < current.toInt then
    if temperature ≤ getThresholdForSpeed cfg target - cfg.hysteresis then true
    else false
  else true

/-- The boundary at which a speed becomes the target in
`determineTargetSpeed` (its own entry boundary): LOW→low, MEDIUM→medium,
HIGH→high, FULL→full. OFF has no upward activation (it is the target below
the low boundary), so the low boundary is used for it. -/
def entryThreshold (cfg : FanControllerConfig) (speed : FanSpeed) : ℚ :=
  match speed with
  | .OFF => cfg.low_threshold
  | .LOW => cfg.low_threshold
  | .MEDIUM => cfg.medium_threshold
  | .HIGH => cfg.high_threshold
  | .FULL => cfg.full_threshold

/-- One tick's speed decision of `FanController::run` with the hardware
write abstracted as succeeding: if the hysteresis check admits the computed
target the speed becomes the target, otherwise it is unchanged. -/
def nextSpeed (cfg : FanControllerConfig) (current : FanSpeed) (temperature : ℚ) :
    FanSpeed :=
  let target := determineTargetSpeed cfg temperature
  if checkHysteresis cfg current temperature target then target else current

/-- The example configuration of the spec: thresholds (53,54,59,64,70),
hysteresis 2. -/
def cfgEx : FanControllerConfig where
  fan_path := "/sys/class/thermal/cooling_device0/cur_state"
  temp_hwmon0_path := "/sys/class/hwmon/hwmon0/temp1_input"
  temp_hwmon1_path := "/sys/class/hwmon/hwmon1/temp1_input"
  off_threshold := 53
  low_threshold := 54
  medium_threshold := 59
  high_threshold := 64
  full_threshold := 70
  hysteresis := 2
  interval_seconds := 5
  debug := false

/-- Observable state of a file at a path: missing (`fs::exists` false),
present but not openable, openable but with no first line (`getline`
fails), or a first line with the given text. -/
inductive FileState where
  | missing
  | unopenable
  | empty
  | line (text : String)
deriving DecidableEq

/-- A filesystem environment: the state of the file at each path. -/
def FsEnv : Type := String → FileState

/-- Whitespace as classified by the C locale `isspace` used by
`std::stoi`'s leading-whitespace skip. -/
def isSpaceCpp (c : Char) : Bool :=
  c = ' ' ∨ c = '\t' ∨ c = '\n' ∨ c = '\x0b' ∨ c = '\x0c' ∨ c = '\r'

/-- Numeric value of a digit string (most significant first). -/
def digitsVal (ds : List Char) : Nat :=
  ds.foldl (fun a c => a * 10 + (c.toNat - 48)) 0

/-- Embedding of `std::stoi`: skip leading whitespace, optional sign, then a maximal
run of decimal digits (trailing characters ignored); `none` when no digit
follows (`std::invalid_argument`) or when the parsed value lies outside the
range of a 32-bit `int` (`std::out_of_range`). Both exceptions reach the
same `catch (const std::exception&)` handlers in the source, so both are
collapsed into the single `none` failure here. -/
def stoi (s : String) : Option Int :=
  let cs := s.data.dropWhile isSpaceCpp
  let parsed : Option Int :=
    match cs with
    | '-' :: rest =>
        let ds := rest.takeWhile Char.isDigit
        if ds.isEmpty then none else some (-(digitsVal ds : Int))
    | '+' :: rest =>
        let ds := rest.takeWhile Char.isDigit
        if ds.isEmpty then none else some ((digitsVal ds : Int))
    | _ =>
        let ds := cs.takeWhile Char.isDigit
        if ds.isEmpty then none else some ((digitsVal ds : Int))
  match parsed with
  | none => none
  | some n => if n < -2147483648 ∨ 2147483647 < n then none else some n

/-- Embedding of `FanController::logDebug`: the message reaches stderr only when the
debug flag is set. -/
def logDebug (cfg : FanControllerConfig) (message : String) : List String :=
  if cfg.debug then [message] else []

/-- Embedding of `FanController::readTemperatureSensor`: value read (`none` models the
NaN failure marker) together with the diagnostic messages emitted.
Missing path, open failure, empty file and a negative value are reported
through debug-gated logging; a `stoi` failure (unparsable line or value
outside the `int` range) and a Celsius value outside the plausible band go
to `std::cerr` unconditionally. -/
def readTemperatureSensor (cfg : FanControllerConfig) (env : FsEnv)
    (temp_path : String) : Option ℚ × List String :=
  match env temp_path with
  | .missing =>
      (none, if cfg.debug then
               logDebug cfg ("Temperature sensor path does not exist: " ++ temp_path)
             else [])
  | .unopenable =>
      (none, if cfg.debug then
               logDebug cfg ("Failed to open temperature sensor: " ++ temp_path)
             else [])
  | .empty =>
      (none, if cfg.debug then
               logDebug cfg ("Temperature sensor file is empty: " ++ temp_path)
             else [])
  | .line text =>
      match stoi text with
      | none => (none, ["Invalid temperature value from " ++ temp_path])
      | some temp_millicelsius =>
          if temp_millicelsius < 0 then
            (none, if cfg.debug then
                     logDebug cfg ("Negative temperature read from " ++ temp_path)
                   else [])
          else
            let temp_celsius : ℚ := (temp_millicelsius : ℚ) / 1000
            if temp_celsius < -50 ∨ temp_celsius > 150 then
              (none, ["Unreasonable temperature read from " ++ temp_path])
            else
              (some temp_celsius, [])

/-- One sensor slot of `FanController::getAverageTemperature`: an
empty-path slot is skipped entirely; otherwise the slot contributes its
reading to `temps` on success and its path to `failed_sensors` on failure
(first component: `temps` contribution, second: `failed_sensors`
contribution, third: emitted diagnostics). Both slots in the source are
this same block, once per hwmon path. -/
def slotRead (cfg : FanControllerConfig) (env : FsEnv) (path : String) :
    List ℚ × List String × List String :=
  if path = "" then ([], [], [])
  else
    let r := readTemperatureSensor cfg env path
    match r.1 with
    | some t => ([t], [], r.2)
    | none => ([], [path], r.2)

/-- The configured sensor slots: the hwmon paths that are non-empty, in
slot order. -/
def configuredPaths (cfg : FanControllerConfig) : List String :=
  (if cfg.temp_hwmon0_path = "" then [] else [cfg.temp_hwmon0_path]) ++
  (if cfg.temp_hwmon1_path = "" then [] else [cfg.temp_hwmon1_path])

/-- The readings of the configured slots that succeeded, in slot order. -/
def validTemps (cfg : FanControllerConfig) (env : FsEnv) : List ℚ :=
  (configuredPaths cfg).filterMap (fun p => (readTemperatureSensor cfg env p).1)

/-- The `failed_sensors` list of `getAverageTemperature`: configured slots
whose read failed. -/
def failedPaths (cfg : FanControllerConfig) (env : FsEnv) : List String :=
  (slotRead cfg env cfg.temp_hwmon0_path).2.1 ++
  (slotRead cfg env cfg.temp_hwmon1_path).2.1

/-- Embedding of `FanController::getAverageTemperature`: read both hwmon slots, return
NaN (modelled `none`) with an unconditional stderr message when no slot
produced a value, otherwise the arithmetic mean of the collected readings
(with a debug-gated note when some slots failed). -/
def getAverageTemperature (cfg : FanControllerConfig) (env : FsEnv) :
    Option ℚ × List String :=
  let s0 := slotRead cfg env cfg.temp_hwmon0_path
  let s1 := slotRead cfg env cfg.temp_hwmon1_path
  let temps := s0.1 ++ s1.1
  let failed := s0.2.1 ++ s1.2.1
  let logs := s0.2.2 ++ s1.2.2
  if temps.isEmpty then
    (none, logs ++ ["All temperature sensors failed, cannot read temperature"])
  else
    let logs2 :=
      if failed.isEmpty then logs
      else logs ++ logDebug cfg ("Using " ++ toString temps.length ++ " sensor(s), "
                                  ++ toString failed.length ++ " sensor(s) failed")
    (some ((temps.foldl (· + ·) 0) / (temps.length : ℚ)), logs2)

/-- Embedding of `FanController::readFanSpeed`: parse the fan file as an integer in
[0,4]; every failure (missing file, open failure, empty file, parse
failure, out-of-range value) falls back to OFF. The argument is the state
of the file at `config_.fan_path`. -/
def readFanSpeed (fan_file : FileState) : FanSpeed :=
  match fan_file with
  | .missing => .OFF
  | .unopenable => .OFF
  | .empty => .OFF
  | .line text =>
      match stoi text with
      | none => .OFF
      | some speed_value =>
          if 0 ≤ speed_value ∧ speed_value ≤ 4 then FanSpeed.ofInt speed_value
          else .OFF

/-- Environment of one `FanController::setFanSpeed` call. `writeOk` is the
stream state after `fan_file << speed_value` and `syncOpenOk` the success
of the `open` for `fsync`: the source inspects neither, so both fields are
ignored by `setFanSpeed` below, exactly as in the source. `afterWrite` is
the state of the fan file at the verification read after the settle
delay. -/
structure WriteEnv where
  fanExists : Bool
  openOk : Bool
  writeOk : Bool
  syncOpenOk : Bool
  afterWrite : FileState

/-- Embedding of `FanController::setFanSpeed`: returns the success flag together with
the `current_fan_speed_` member after the call (`cur` is its value
before). The level-range guard is kept from the source even though every
`FanSpeed` value satisfies it. No step of the `try` block throws in this
model, matching the source where the stream operations have no exception
mask set. -/
def setFanSpeed (cur : FanSpeed) (env : WriteEnv) (speed : FanSpeed) :
    Bool × FanSpeed :=
  if speed = cur then (true, cur)
  else if speed.toInt < 0 ∨ 4 < speed.toInt then (false, cur)
  else if env.fanExists = false then (false, cur)
  else if env.openOk = false then (false, cur)
  else if readFanSpeed env.afterWrite ≠ speed then (false, cur)
  else (true, speed)

/-- Environment of one iteration of the `FanController::run` loop:
the aggregated temperature obtained this tick (with its file reads left
abstract), the write environment, and the state of the fan file at the
re-sync read performed when the write fails. -/
structure TickEnv where
  temp : Option ℚ
  writeEnv : WriteEnv
  resyncRead : FileState

/-- One iteration of the `FanController::run` loop, as the transformation
of `current_fan_speed_`: skip on unavailable temperature, otherwise apply
the admitted target through `setFanSpeed`, falling back to a fresh
hardware read when the write fails. -/
def tick (cfg : FanControllerConfig) (cur : FanSpeed) (env : TickEnv) : FanSpeed :=
  match env.temp with
  | none => cur
  | some temp_average =>
      let target := determineTargetSpeed cfg temp_average
      if checkHysteresis cfg cur temp_average target then
        if target ≠ cur then
          let r := setFanSpeed cur env.writeEnv target
          if r.1 then r.2 else readFanSpeed env.resyncRead
        else cur
      else cur

/-- Embedding of `FanController::stop`: assigns false to the `running_` flag. -/
def stopFlag (_running : Bool) : Bool := false

/-- The `running_` flag as observed at the while-condition check of
iteration `n` of `FanController::run`. `run` begins with `running_ = true`,
overwriting whatever value the flag had before entry (`prevRunning`);
`sig n = true` means a stop request lands during iteration `n`, so it is
observed at the following check. -/
def runLoopFlag (prevRunning : Bool) (sig : Nat → Bool) : Nat → Bool
  | 0 => true
  | n + 1 => runLoopFlag prevRunning sig n && !(sig n)

/-- Configuration with one configured sensor slot (slot 1 empty) and debug
off, used for concrete aggregation and diagnostics instances. -/
def cfgOneSensor : FanControllerConfig :=
  { cfgEx with temp_hwmon0_path := "s0", temp_hwmon1_path := "", debug := false }

/-- Environment in which every file holds the line 45000 (45 °C in
milli-Celsius). -/
def envVal : FsEnv := fun _ => .line "45000"

/-- Environment in which every file is missing. -/
def envMissing : FsEnv := fun _ => .missing

/-- Environment in which every file holds an unparsable line. -/
def envBad : FsEnv := fun _ => .line "abc"

/-- Environment in which every file holds a line below `INT_MIN`, making
`std::stoi` fail with `std::out_of_range`. -/
def envOverflow : FsEnv := fun _ => .line "-3000000000"

/-- Write environment in which the stream write and the open for `fsync`
both fail but the fan file reads back 2 at verification. -/
def envStreamFail : WriteEnv :=
  { fanExists := true, openOk := true, writeOk := false, syncOpenOk := false,
    afterWrite := .line "2" }

/-- Write environment of spec Example 4: the device accepts the open but
the file reads back 3 after a write of 2. -/
def envWriteMismatch : WriteEnv :=
  { fanExists := true, openOk := true, writeOk := true, syncOpenOk := true,
    afterWrite := .line "3" }

/-- Tick environment of spec Example 4: temperature 60 °C, the write of
the admitted target fails verification, and the re-sync read also sees 3. -/
def envTick4 : TickEnv :=
  { temp := some 60, writeEnv := envWriteMismatch, resyncRead := .line "3" }

/-- Write environment in which the fan device file is missing. -/
def envNoDevice : WriteEnv :=
  { fanExists := false, openOk := true, writeOk := true, syncOpenOk := true,
    afterWrite := .missing }

/-- A stop request arriving during iteration 0 of the control loop. -/
def sigStopAt0 : Nat → Bool := fun k => k == 0

/-- A failing sensor read emits an unconditional (not debug-gated)
diagnostic exactly when the first line yields no `int` value (unparsable
text or a value outside the `int` range, the two `std::stoi` exceptions)
or parses to a non-negative value out of the plausible Celsius band. -/
def alwaysDiag (env : FsEnv) (p : String) : Prop :=
  match env p with
  | .line text =>
      match stoi text with
      | none => True
      | some n => 0 ≤ n ∧ (((n : ℚ) / 1000) < -50 ∨ ((n : ℚ) / 1000) > 150)
  | _ => False

/-- Every `FanSpeed` value has underlying integer in [0,4]. -/
lemma FanSpeed.toInt_bounds (s : FanSpeed) : 0 ≤ s.toInt ∧ s.toInt ≤ 4 := by
  cases s <;> simp [FanSpeed.toInt]

/-- C1: with positive hysteresis and a target strictly below the current
speed, `checkHysteresis` admits the decrease exactly when the temperature
is at most `getThresholdForSpeed target - hysteresis` (OFF→low, LOW→medium,
MEDIUM→high, HIGH/FULL→full boundary). -/
theorem c1_admit_decrease_iff (cfg : FanControllerConfig) (cur target : FanSpeed)
    (t : ℚ) (hh : 0 < cfg.hysteresis) (hlt : target.toInt < cur.toInt) :
    checkHysteresis cfg cur t target = true ↔
      t ≤ getThresholdForSpeed cfg target - cfg.hysteresis := by
  unfold checkHysteresis
  rw [if_neg (not_le.mpr hh), if_neg (by omega), if_pos hlt]
  split_ifs with h
  · simp [h]
  · simp [h]

/-- C1 witness: thresholds (53,54,59,64,70), hysteresis 2, current MEDIUM,
temperature 57.5: the target is LOW, the decrease is not admitted
(57.5 > 57), and the per-tick decision keeps the speed at MEDIUM. -/
theorem c1_witness :
    determineTargetSpeed cfgEx (57.5 : ℚ) = FanSpeed.LOW ∧
    checkHysteresis cfgEx .MEDIUM (57.5 : ℚ) .LOW = false ∧
    nextSpeed cfgEx .MEDIUM (57.5 : ℚ) = .MEDIUM := by
  refine ⟨by norm_num [determineTargetSpeed, cfgEx], ?_, ?_⟩
  · have h := c1_admit_decrease_iff cfgEx .MEDIUM .LOW (57.5 : ℚ)
      (by norm_num [cfgEx]) (by simp [FanSpeed.toInt])
    have hn : ¬ ((57.5 : ℚ) ≤ getThresholdForSpeed cfgEx .LOW - cfgEx.hysteresis) := by
      norm_num [getThresholdForSpeed, cfgEx]
    cases hb : checkHysteresis cfgEx .MEDIUM (57.5 : ℚ) .LOW
    · rfl
    · exact absurd (h.mp hb) hn
  · norm_num [nextSpeed, determineTargetSpeed, checkHysteresis, getThresholdForSpeed,
      cfgEx, FanSpeed.toInt]

/-- C3: a target strictly above the current speed is always admitted by
`checkHysteresis`, for every temperature and hysteresis value. -/
theorem c3_increase_always_admitted (cfg : FanControllerConfig)
    (cur target : FanSpeed) (t : ℚ) (h : cur.toInt < target.toInt) :
    checkHysteresis cfg cur t target = true := by
  unfold checkHysteresis
  split_ifs with h1 h2 h3 <;> first | rfl | (exfalso; omega)

/-- C3 witness: an increase from OFF to FULL at temperature 100 is
admitted under the example configuration. -/
theorem c3_witness : checkHysteresis cfgEx .OFF (100 : ℚ) .FULL = true :=
  c3_increase_always_admitted cfgEx .OFF .FULL 100 (by simp [FanSpeed.toInt])

/-- C4: with strictly increasing thresholds, `determineTargetSpeed` is
monotonically non-decreasing in the temperature (on the FanSpeed integer
order) and always returns one of the five levels. -/
theorem c4_target_monotone_total (cfg : FanControllerConfig)
    (hord : cfg.off_threshold < cfg.low_threshold ∧
      cfg.low_threshold < cfg.medium_threshold ∧
      cfg.medium_threshold < cfg.high_threshold ∧
      cfg.high_threshold < cfg.full_threshold)
    (t1 t2 : ℚ) (h12 : t1 ≤ t2) :
    (determineTargetSpeed cfg t1).toInt ≤ (determineTargetSpeed cfg t2).toInt ∧
    ∀ t : ℚ, determineTargetSpeed cfg t ∈
      [FanSpeed.OFF, FanSpeed.LOW, FanSpeed.MEDIUM, FanSpeed.HIGH, FanSpeed.FULL] := by
  constructor
  · unfold determineTargetSpeed
    split_ifs <;> simp [FanSpeed.toInt] <;> linarith
  · intro t
    unfold determineTargetSpeed
    split_ifs <;> simp

/-- C4 witness: under the example thresholds, the target at 56 °C is below
the target at 61 °C and is one of the five levels. -/
theorem c4_witness :
    (determineTargetSpeed cfgEx 56).toInt ≤ (determineTargetSpeed cfgEx 61).toInt ∧
    ∀ t : ℚ, determineTargetSpeed cfgEx t ∈
      [FanSpeed.OFF, FanSpeed.LOW, FanSpeed.MEDIUM, FanSpeed.HIGH, FanSpeed.FULL] :=
  c4_target_monotone_total cfgEx (by norm_num [cfgEx]) 56 61 (by norm_num)

/-- Below the entry boundary of the current speed `S`, the computed target
either already equals `S` or is strictly lower with its hysteresis
boundary at most `S`'s entry boundary. -/
lemma target_band_cases (cfg : FanControllerConfig) (S : FanSpeed) (t : ℚ)
    (h2 : cfg.low_threshold < cfg.medium_threshold)
    (h3 : cfg.medium_threshold < cfg.high_threshold)
    (h4 : cfg.high_threshold < cfg.full_threshold)
    (ht : t < entryThreshold cfg S) :
    determineTargetSpeed cfg t = S ∨
      ((determineTargetSpeed cfg t).toInt < S.toInt ∧
        getThresholdForSpeed cfg (determineTargetSpeed cfg t) ≤ entryThreshold cfg S) := by
  cases S <;> simp only [entryThreshold] at ht <;> unfold determineTargetSpeed <;>
    split_ifs <;>
      first
        | (left; rfl)
        | (exfalso; linarith)
        | (right;
           exact ⟨by simp [FanSpeed.toInt],
                  by simp only [getThresholdForSpeed, entryThreshold]; linarith⟩)

/-- In the band strictly between `entryThreshold S - hysteresis` and
`entryThreshold S`, a tick at current speed `S` leaves the speed at `S`. -/
lemma nextSpeed_stable (cfg : FanControllerConfig) (S : FanSpeed) (t : ℚ)
    (h2 : cfg.low_threshold < cfg.medium_threshold)
    (h3 : cfg.medium_threshold < cfg.high_threshold)
    (h4 : cfg.high_threshold < cfg.full_threshold)
    (hlo : entryThreshold cfg S - cfg.hysteresis < t)
    (hhi : t < entryThreshold cfg S) :
    nextSpeed cfg S t = S := by
  have hh : 0 < cfg.hysteresis := by linarith
  rcases target_band_cases cfg S t h2 h3 h4 hhi with heq | ⟨hlt, hle⟩
  · simp only [nextSpeed, heq]
    split_ifs <;> rfl
  · have hc : checkHysteresis cfg S t (determineTargetSpeed cfg t) = false := by
      unfold checkHysteresis
      rw [if_neg (not_le.mpr hh), if_neg (by omega), if_pos hlt,
        if_neg (by linarith)]
    simp [nextSpeed, hc]

/-- C2: with strictly increasing thresholds, for any temperature strictly
between `entryThreshold S - hysteresis` and `entryThreshold S`, any number
of repeated tick evaluations starting at speed `S` keeps the speed at `S`:
the computed target is never admitted away from `S`. -/
theorem c2_no_chatter (cfg : FanControllerConfig) (S : FanSpeed) (t : ℚ) (n : Nat)
    (h1 : cfg.off_threshold < cfg.low_threshold)
    (h2 : cfg.low_threshold < cfg.medium_threshold)
    (h3 : cfg.medium_threshold < cfg.high_threshold)
    (h4 : cfg.high_threshold < cfg.full_threshold)
    (hlo : entryThreshold cfg S - cfg.hysteresis < t)
    (hhi : t < entryThreshold cfg S) :
    (fun s => nextSpeed cfg s t)^[n] S = S := by
  induction n with
  | zero => rfl
  | succ k ih =>
      rw [Function.iterate_succ_apply', ih]
      exact nextSpeed_stable cfg S t h2 h3 h4 hlo hhi

/-- C2 witness: at 58 °C in the MEDIUM band (57,59) of the example
configuration, three repeated evaluations keep the speed at MEDIUM. -/
theorem c2_witness : (fun s => nextSpeed cfgEx s (58 : ℚ))^[3] FanSpeed.MEDIUM
    = FanSpeed.MEDIUM :=
  c2_no_chatter cfgEx .MEDIUM 58 3 (by norm_num [cfgEx]) (by norm_num [cfgEx])
    (by norm_num [cfgEx]) (by norm_num [cfgEx])
    (by norm_num [entryThreshold, cfgEx]) (by norm_num [entryThreshold, cfgEx])

/-- The `temps` contribution of one slot is the successful reading of the
slot when its path is configured, nothing otherwise. -/
lemma slotRead_temps (cfg : FanControllerConfig) (env : FsEnv) (p : String) :
    (slotRead cfg env p).1 =
      (if p = "" then [] else [p]).filterMap
        (fun q => (readTemperatureSensor cfg env q).1) := by
  by_cases hp : p = ""
  · simp [slotRead, hp]
  · rcases hr : (readTemperatureSensor cfg env p).1 with _ | t <;>
      simp [slotRead, hp, hr]

/-- The `temps` vector collected by `getAverageTemperature` is exactly the
list of valid readings of the configured slots. -/
lemma temps_eq (cfg : FanControllerConfig) (env : FsEnv) :
    (slotRead cfg env cfg.temp_hwmon0_path).1 ++
      (slotRead cfg env cfg.temp_hwmon1_path).1 = validTemps cfg env := by
  simp [validTemps, configuredPaths, slotRead_temps]

/-- The value computed by `getAverageTemperature` is `none` when no
configured slot produced a reading and the mean of the valid readings
otherwise. -/
lemma getAverageTemperature_val (cfg : FanControllerConfig) (env : FsEnv) :
    (getAverageTemperature cfg env).1 =
      if validTemps cfg env = [] then none
      else some ((validTemps cfg env).foldl (· + ·) 0 /
                  ((validTemps cfg env).length : ℚ)) := by
  have h := temps_eq cfg env
  simp only [getAverageTemperature]
  rw [h]
  cases hvt : validTemps cfg env with
  | nil => simp
  | cons a as => simp

/-- A path recorded in `failed_sensors` is never the empty path. -/
lemma slotRead_failed_ne (cfg : FanControllerConfig) (env : FsEnv) (path : String) :
    ∀ p ∈ (slotRead cfg env path).2.1, p ≠ "" := by
  intro p hp
  by_cases h0 : path = ""
  · simp [slotRead, h0] at hp
  · rcases hr : (readTemperatureSensor cfg env path).1 with _ | t
    · simp only [slotRead, if_neg h0, hr] at hp
      simp at hp
      exact hp ▸ h0
    · simp [slotRead, h0, hr] at hp

/-- C5: `getAverageTemperature` returns the unavailable marker exactly
when zero configured slots produced a valid reading (so never a numeric
value, in particular never 0, in that case), returns the arithmetic mean
of exactly the valid readings otherwise, and an empty-path slot appears
neither among the readings nor among the counted failures. -/
theorem c5_aggregate_mean (cfg : FanControllerConfig) (env : FsEnv) :
    ((getAverageTemperature cfg env).1 = none ↔ validTemps cfg env = []) ∧
    (∀ m, (getAverageTemperature cfg env).1 = some m →
      m = (validTemps cfg env).foldl (· + ·) 0 / ((validTemps cfg env).length : ℚ)) ∧
    (∀ p ∈ failedPaths cfg env, p ≠ "") := by
  refine ⟨?_, ?_, ?_⟩
  · rw [getAverageTemperature_val]
    split_ifs with hv <;> simp [hv]
  · intro m hm
    rw [getAverageTemperature_val] at hm
    split_ifs at hm with hv
    simp only [Option.some.injEq] at hm
    exact hm.symm
  · intro p hp
    unfold failedPaths at hp
    rcases List.mem_append.mp hp with h | h
    · exact slotRead_failed_ne cfg env cfg.temp_hwmon0_path p h
    · exact slotRead_failed_ne cfg env cfg.temp_hwmon1_path p h

/-- C5 witness: one configured sensor reading 45000 m°C yields the mean
45 °C, matching the fold over the valid readings. -/
theorem c5_witness :
    (45 : ℚ) = (validTemps cfgOneSensor envVal).foldl (· + ·) 0 /
      ((validTemps cfgOneSensor envVal).length : ℚ) :=
  (c5_aggregate_mean cfgOneSensor envVal).2.1 45 (by
    rw [getAverageTemperature]
    norm_num [slotRead, readTemperatureSensor, envVal, cfgOneSensor,
      show ("s0" : String) ≠ "" from by decide,
      show stoi "45000" = some 45000 from by decide])

/-- C6: when a tick attempts a fan write (temperature available, target
admitted and different from the current speed) and the write fails, the
new `current_fan_speed_` is the value of the fresh hardware re-sync read,
and the loop state remains well-defined (the tick returns normally). -/
theorem c6_resync_on_write_failure (cfg : FanControllerConfig) (cur : FanSpeed)
    (env : TickEnv) (t : ℚ) (h1 : env.temp = some t)
    (h2 : checkHysteresis cfg cur t (determineTargetSpeed cfg t) = true)
    (h3 : determineTargetSpeed cfg t ≠ cur)
    (h4 : (setFanSpeed cur env.writeEnv (determineTargetSpeed cfg t)).1 = false) :
    tick cfg cur env = readFanSpeed env.resyncRead := by
  simp only [tick, h1]
  rw [if_pos h2, if_pos h3, if_neg (by simp [h4])]

/-- C6 witness: spec Example 4 under the example configuration — at 60 °C
with current FULL the admitted target is MEDIUM (2); the write fails
verification because the hardware reads back 3, and the re-sync read sets
the speed to HIGH (3), neither the old FULL nor the attempted MEDIUM. -/
theorem c6_witness : tick cfgEx .FULL envTick4 = FanSpeed.HIGH := by
  have htar : determineTargetSpeed cfgEx (60 : ℚ) = .MEDIUM := by
    norm_num [determineTargetSpeed, cfgEx]
  have h := c6_resync_on_write_failure cfgEx .FULL envTick4 60 rfl
    (by norm_num [checkHysteresis, getThresholdForSpeed, determineTargetSpeed,
      cfgEx, FanSpeed.toInt])
    (by rw [htar]; simp)
    (by rw [htar]; simp [setFanSpeed, envTick4, envWriteMismatch, readFanSpeed,
      show stoi "3" = some 3 from by decide, FanSpeed.ofInt])
  rw [h]
  simp [envTick4, readFanSpeed, show stoi "3" = some 3 from by decide, FanSpeed.ofInt]

/-- C7 counterexample: a `setFanSpeed` call in which the stream write and
the open for `fsync` both fail, yet the call returns success because the
verification read matches — the source never inspects the stream state
after insertion nor the result of the sync step, contradicting the claim
that a failing write or sync step yields a failure return. -/
theorem c7_counterexample :
    envStreamFail.writeOk = false ∧ envStreamFail.syncOpenOk = false ∧
    (setFanSpeed .OFF envStreamFail .MEDIUM).1 = true := by
  refine ⟨rfl, rfl, ?_⟩
  simp [setFanSpeed, envStreamFail, readFanSpeed, FanSpeed.toInt,
    show stoi "2" = some 2 from by decide, FanSpeed.ofInt]

/-- C7 amended: `setFanSpeed` on a level different from the in-memory
current speed returns success exactly when the device path exists, the
open succeeds and the post-settle read-back equals the intended level;
on the current level it returns success without touching the device.
Failures of the stream write itself and of the sync step are ignored. -/
theorem c7_write_failure_iff (cur : FanSpeed) (env : WriteEnv) (speed : FanSpeed) :
    (setFanSpeed cur env speed).1 = true ↔
      (speed = cur ∨
        (env.fanExists = true ∧ env.openOk = true ∧
          readFanSpeed env.afterWrite = speed)) := by
  unfold setFanSpeed
  have hb : ¬ (speed.toInt < 0 ∨ 4 < speed.toInt) := by
    have := FanSpeed.toInt_bounds speed
    omega
  by_cases h1 : speed = cur
  · simp [h1]
  · rw [if_neg h1, if_neg hb]
    split_ifs with h2 h3 h4 <;> simp_all

/-- C9: `setFanSpeed` is atomic on `current_fan_speed_`: every failing
return leaves the in-memory speed unchanged, and the in-memory speed is
changed only to a level whose write passed the verification read-back. -/
theorem c9_setFanSpeed_atomic (cur : FanSpeed) (env : WriteEnv) (speed : FanSpeed) :
    ((setFanSpeed cur env speed).1 = false → (setFanSpeed cur env speed).2 = cur) ∧
    ((setFanSpeed cur env speed).2 ≠ cur →
      (setFanSpeed cur env speed).1 = true ∧
      readFanSpeed env.afterWrite = speed ∧
      (setFanSpeed cur env speed).2 = speed) := by
  unfold setFanSpeed
  split_ifs with h1 h2 h3 h4 h5 <;> simp_all

/-- C9 witness: with the fan device file missing, `setFanSpeed` fails and
leaves the in-memory speed at its previous value LOW. -/
theorem c9_witness : (setFanSpeed .LOW envNoDevice .FULL).2 = FanSpeed.LOW :=
  (c9_setFanSpeed_atomic .LOW envNoDevice .FULL).1 (by
    simp [setFanSpeed, envNoDevice, FanSpeed.toInt])

/-- C8 counterexample: with the debug flag off, a configured (non-empty)
sensor path whose file is missing fails the read yet emits no diagnostic
at all — refuting the claim that every failure on a configured path is
surfaced regardless of the debug flag. -/
theorem c8_counterexample :
    cfgOneSensor.debug = false ∧ ("s0" : String) ≠ "" ∧
    (readTemperatureSensor cfgOneSensor envMissing "s0").1 = none ∧
    (readTemperatureSensor cfgOneSensor envMissing "s0").2 = [] := by
  refine ⟨rfl, by decide, ?_, ?_⟩ <;>
    simp [readTemperatureSensor, envMissing, cfgOneSensor, cfgEx]

/-- C8 amended: a failing sensor read emits a diagnostic exactly when the
debug flag is set or the failure is one of the unconditionally surfaced
kinds (a line yielding no `int` value — unparsable or outside the `int`
range — or a parsed non-negative value outside the plausible Celsius
band); the missing-path, open-failure, empty-file and in-range
negative-value failures are surfaced only in debug mode. -/
theorem c8_diag_iff (cfg : FanControllerConfig) (env : FsEnv) (p : String)
    (hfail : (readTemperatureSensor cfg env p).1 = none) :
    (readTemperatureSensor cfg env p).2 ≠ [] ↔
      (cfg.debug = true ∨ alwaysDiag env p) := by
  rcases henv : env p with _ | _ | _ | text
  · simp only [readTemperatureSensor, alwaysDiag, henv, logDebug]
    cases hd : cfg.debug <;> simp [hd]
  · simp only [readTemperatureSensor, alwaysDiag, henv, logDebug]
    cases hd : cfg.debug <;> simp [hd]
  · simp only [readTemperatureSensor, alwaysDiag, henv, logDebug]
    cases hd : cfg.debug <;> simp [hd]
  · rcases hs : stoi text with _ | n
    · simp [readTemperatureSensor, alwaysDiag, henv, hs]
    · by_cases hn : n < 0
      · simp only [readTemperatureSensor, alwaysDiag, henv, hs, if_pos hn, logDebug]
        cases hd : cfg.debug <;> simp [hd] <;> omega
      · by_cases hr : ((n : ℚ) / 1000) < -50 ∨ ((n : ℚ) / 1000) > 150
        · simp only [readTemperatureSensor, alwaysDiag, henv, hs, if_neg hn,
            if_pos hr]
          simp only [ne_eq, List.cons_ne_self]
          constructor
          · intro _
            exact Or.inr ⟨by omega, hr⟩
          · intro _
            simp
        · exfalso
          simp only [readTemperatureSensor, henv, hs, if_neg hn, if_neg hr] at hfail
          exact Option.noConfusion hfail

/-- C8 amended witness: with the debug flag off, an unparsable sensor
line and a negative line below `INT_MIN` (the `std::out_of_range` case)
are still surfaced. -/
theorem c8_witness :
    (readTemperatureSensor cfgOneSensor envBad "s0").2 ≠ [] ∧
    (readTemperatureSensor cfgOneSensor envOverflow "s0").2 ≠ [] :=
  ⟨(c8_diag_iff cfgOneSensor envBad "s0" (by
      simp [readTemperatureSensor, envBad, show stoi "abc" = none from by decide])).mpr
    (Or.inr (by simp [alwaysDiag, envBad, show stoi "abc" = none from by decide])),
   (c8_diag_iff cfgOneSensor envOverflow "s0" (by
      simp [readTemperatureSensor, envOverflow,
        show stoi "-3000000000" = none from by decide])).mpr
    (Or.inr (by simp [alwaysDiag, envOverflow,
      show stoi "-3000000000" = none from by decide]))⟩

/-- C10: `run` assigns true to the running flag on entry, before the first
loop check, so the flag at check 0 is true even when a `stop` completed
before entry (`stopFlag true` is the flag such a stop leaves behind); and a
stop request landing during iteration `n` of the running loop makes the
flag false at the next iteration boundary. -/
theorem c10_run_entry_overwrites_stop (sig : Nat → Bool) (n : Nat) :
    runLoopFlag (stopFlag true) sig 0 = true ∧
    (sig n = true → runLoopFlag (stopFlag true) sig (n + 1) = false) := by
  constructor
  · rfl
  · intro h
    simp [runLoopFlag, h]

/-- C10 witness: with a stop that completed before entry and a stop
request during iteration 0, the loop still starts (flag true at check 0)
and terminates at the next boundary (flag false at check 1). -/
theorem c10_witness :
    runLoopFlag (stopFlag true) sigStopAt0 0 = true ∧
    runLoopFlag (stopFlag true) sigStopAt0 1 = false :=
  ⟨(c10_run_entry_overwrites_stop sigStopAt0 0).1,
   (c10_run_entry_overwrites_stop sigStopAt0 0).2 (by decide)⟩
